/-
Verification of the grin-pool stratum pool controller
(`src/stratum/src/pool/pool.rs`) against its natural-language design
specification.

The Rust code is shallowly embedded below.  `HashMap` is modelled as an
association list with at most one entry per key (`alookup` / `ainsert` /
`aremove` mirror `get` / `insert` / `remove`).  The cryptographic
collaborators from the `grin_core` and `pool::consensus` crates
(`block_header`, `pow::verify_size`, `Proof::to_difficulty_unscaled`) are
opaque to the pool controller, so they enter the model as oracle functions
collected in an `Env`.  Rust `u64` counters are modelled as unbounded
naturals (the claims under study only ever compare a counter with its
single-step increment, where wrap-around cannot matter); the one place
where `u64` overflow is semantically relevant, namely the job-id derivation
`height * 1000 + job_id`, carries an explicit `% 2 ^ 64`.  A Rust panic
(`unwrap` on an `Err`, or `%` by zero) is modelled explicitly: the
per-share pipeline returns a `panicked` flag and the registry-level loop
returns an `Option` that is `none` exactly on panic.
-/
import Mathlib

set_option autoImplicit false

/-- Association-list lookup, mirroring `HashMap::get` / `contains_key`. -/
def alookup {α β : Type} [DecidableEq α] : List (α × β) → α → Option β
  | [], _ => none
  | (k, v) :: rest, key => if k = key then some v else alookup rest key

/-- Association-list insert, mirroring `HashMap::insert` (replaces an
existing binding for the key, otherwise appends a new one). -/
def ainsert {α β : Type} [DecidableEq α] : List (α × β) → α → β → List (α × β)
  | [], k, v => [(k, v)]
  | (k', v') :: rest, k, v =>
      if k' = k then (k, v) :: rest else (k', v') :: ainsert rest k v

/-- Association-list removal, mirroring `HashMap::remove`. -/
def aremove {α β : Type} [DecidableEq α] : List (α × β) → α → List (α × β)
  | [], _ => []
  | (k, v) :: rest, key => if k = key then rest else (k, v) :: aremove rest key

@[simp] theorem alookup_nil {α β : Type} [DecidableEq α] (k : α) :
    alookup ([] : List (α × β)) k = none := rfl

theorem alookup_ainsert_self {α β : Type} [DecidableEq α]
    (l : List (α × β)) (k : α) (v : β) : alookup (ainsert l k v) k = some v := by
  induction l with
  | nil => simp [ainsert, alookup]
  | cons hd tl ih =>
      obtain ⟨k', v'⟩ := hd
      by_cases h : k' = k
      · simp [ainsert, alookup, h]
      · simp [ainsert, alookup, h, ih]

theorem alookup_ainsert_ne {α β : Type} [DecidableEq α]
    (l : List (α × β)) (k k' : α) (v : β) (h : k' ≠ k) :
    alookup (ainsert l k v) k' = alookup l k' := by
  have h' : ¬ k = k' := fun hh => h hh.symm
  induction l with
  | nil => simp [ainsert, alookup, h']
  | cons hd tl ih =>
      obtain ⟨ka, va⟩ := hd
      by_cases hk : ka = k
      · subst hk
        simp [ainsert, alookup, h']
      · simp [ainsert, alookup, hk, ih]

/-- JSON-RPC-style messages sent to a worker over its connection:
acknowledgements (`send_ok`), error responses (`send_err`) and job pushes
(`send_job`). -/
inductive WorkerMsg where
  | ok (method : String)
  | err (method : String) (message : String) (code : Int)
  | job (job_id : Nat) (height : Nat) (pre_pow : String)
deriving DecidableEq

/-- `worker.status` — the per-worker accepted/rejected/stale counters and
the worker's currently assigned difficulty (`WorkerStatus` in
`pool/proto.rs`). -/
structure WorkerStatus where
  accepted : Nat
  rejected : Nat
  stale : Nat
  difficulty : Nat
deriving DecidableEq

/-- One `add_shares` event: the edge-bits key and the
(accepted, rejected, stale) deltas recorded for it. -/
structure SharesEntry where
  edge_bits : Nat
  accepted : Nat
  rejected : Nat
  stale : Nat
deriving DecidableEq

/-- Modelled from the spec: `worker.worker_shares` lives in
`pool/worker.rs`, which is not among the given sources.  Per the spec it is
the worker's per-block share tally "keyed additionally by edge-bits for
later reporting", recorded at a given height and difficulty; we model it as
the height, the difficulty, and the log of `add_shares` events. -/
structure WorkerShares where
  height : Nat
  difficulty : Nat
  tally : List SharesEntry
deriving DecidableEq

/-- A share submitted by a worker (`SubmitParams` in `pool/proto.rs`):
job identifier (height-prefixed), height, edge-bits, nonce and the
proof-of-work nonce vector. -/
structure Share where
  job_id : Nat
  height : Nat
  edge_bits : Nat
  nonce : Nat
  pow : List Nat
deriving DecidableEq

/-- A job template (`JobTemplate` in `pool/proto.rs`): the fields the pool
controller reads and writes. -/
structure JobTemplate where
  job_id : Nat
  height : Nat
  pre_pow : String
deriving DecidableEq

/-- A worker record.  `uid` is `worker.id()` (the `usize` stored into the
duplicates map), `full_id` is `worker.full_id()` (the stable
`login-rig_id` composite used as the registry key after login), and `sent`
is the log of messages written to the worker's connection. -/
structure Worker where
  uid : Nat
  rig_id : String
  login : String
  full_id : String
  authenticated : Bool
  needs_job : Bool
  error : Bool
  height : Nat
  status : WorkerStatus
  worker_shares : WorkerShares
  sent : List WorkerMsg
deriving DecidableEq

/-- Modelled from the spec: `Worker::send_err` lives in `pool/worker.rs`,
which is not among the given sources; it sends the worker an RPC error
response with a method tag, a human-readable message and a numeric code. -/
def Worker.send_err (w : Worker) (method message : String) (code : Int) : Worker :=
  { w with sent := w.sent ++ [WorkerMsg.err method message code] }

/-- Modelled from the spec: `Worker::send_ok` lives in `pool/worker.rs`,
which is not among the given sources; it sends the worker an
acknowledgement tagged with the method name. -/
def Worker.send_ok (w : Worker) (method : String) : Worker :=
  { w with sent := w.sent ++ [WorkerMsg.ok method] }

/-- Modelled from the spec: `Worker::add_shares` lives in
`pool/worker.rs`, which is not among the given sources; it records an
(accepted, rejected, stale) outcome in the per-edge-bits share tally. -/
def Worker.add_shares (w : Worker) (edge_bits accepted rejected stale : Nat) : Worker :=
  { w with worker_shares :=
      { w.worker_shares with
          tally := w.worker_shares.tally ++
            [{ edge_bits := edge_bits, accepted := accepted,
               rejected := rejected, stale := stale }] } }

/-- Modelled from the spec: `Worker::reset_worker_shares` lives in
`pool/worker.rs`, which is not among the given sources.  Per the spec it
resets the worker's accumulated share tally to the fresh (empty) values for
the current height and pool difficulty. -/
def Worker.reset_worker_shares (w : Worker) (height difficulty : Nat) : Worker :=
  { w with worker_shares := { height := height, difficulty := difficulty, tally := [] } }

/-- Modelled from the spec: `Worker::set_difficulty` lives in
`pool/worker.rs`, which is not among the given sources; it assigns the
worker's current difficulty. -/
def Worker.set_difficulty (w : Worker) (difficulty : Nat) : Worker :=
  { w with status := { w.status with difficulty := difficulty } }

/-- Modelled from the spec: `Worker::set_height` lives in
`pool/worker.rs`, which is not among the given sources; it assigns the
worker's current height. -/
def Worker.set_height (w : Worker) (height : Nat) : Worker :=
  { w with height := height }

/-- Modelled from the spec: `Worker::send_job` lives in `pool/worker.rs`,
which is not among the given sources; it pushes the current job template to
the worker. -/
def Worker.send_job (w : Worker) (j : JobTemplate) : Worker :=
  { w with sent := w.sent ++ [WorkerMsg.job j.job_id j.height j.pre_pow] }

/-- `format!("{}-{}", worker.id(), worker.rig_id())` — the composite
identity string attached to a share forwarded upstream. -/
def full_worker_id (w : Worker) : String :=
  toString w.uid ++ "-" ++ w.rig_id

/-- The mutable state of the `Pool` struct that the share pipeline and job
transitions touch: the current job template, the pool difficulty
(`self.difficulty`), the configured per-port difficulty
(`self.config.workers.port_difficulty.difficulty`), the per-height
duplicates map (pow vector ↦ worker id who first submitted it), the
job-versions map (job id ↦ pre_pow string), and the log of shares forwarded
upstream via `server.submit_share`. -/
structure Pool where
  job : JobTemplate
  difficulty : Nat
  config_difficulty : Nat
  duplicates : List (List Nat × Nat)
  job_versions : List (Nat × String)
  submitted : List (Share × String)
deriving DecidableEq

/-- Oracles for the external cryptographic collaborators.  `header_ok`
models whether `block_header(pre_pow, edge_bits as u8, nonce, pow)` returns
`Ok`; `verify_ok` models whether `grin_core::pow::verify_size` succeeds on
the reconstructed header; `difficulty` models
`MinerProof { edge_bits: edge_bits as u8, nonces: pow }.to_difficulty_unscaled().to_num()`.
The `as u8` truncation in the source is made explicit at each call site by
passing `edge_bits % 256`. -/
structure Env where
  header_ok : String → Nat → Nat → List Nat → Bool
  verify_ok : String → Nat → Nat → List Nat → Bool
  difficulty : Nat → List Nat → Nat

/-- The terminal outcome of the pipeline on one share. -/
inductive Outcome where
  | accepted
  | dupReject
  | sizeReject
  | staleReject
  | unknownJob
  | headerFail
  | verifyFail
  | lowDiff
  | lowWorkerDiff
deriving DecidableEq

/-- The body of the per-share loop of `Pool::process_shares`
(pool.rs lines 292–413), for one share of one worker.  Returns the updated
pool state, the updated worker, the terminal outcome, and a flag that is
`true` exactly when the Rust code panics (`share.job_id % share.height`
with `share.height == 0` on the accept path). -/
def processShare (env : Env) (p : Pool) (w : Worker) (sh : Share) :
    Pool × Worker × Outcome × Bool :=
  match alookup p.duplicates sh.pow with
  | some _ =>
      (p,
       (({ w with status := { w.status with rejected := w.status.rejected + 1 } }).add_shares
           sh.edge_bits 0 1 0).send_err "submit" "Failed to validate solution" (-32502),
       Outcome.dupReject, false)
  | none =>
      let p1 : Pool := { p with duplicates := ainsert p.duplicates sh.pow w.uid }
      if sh.edge_bits < 29 ∨ sh.edge_bits = 30 then
        -- note: the `add_shares` call on this path is commented out in the source
        (p1,
         ({ w with status := { w.status with rejected := w.status.rejected + 1 } }).send_err
           "submit" "Invalid POW size" (-32502),
         Outcome.sizeReject, false)
      else if sh.height ≠ p1.job.height then
        (p1,
         (({ w with status := { w.status with stale := w.status.stale + 1 } }).add_shares
             sh.edge_bits 0 0 1).send_err "submit" "Solution submitted too late" (-32503),
         Outcome.staleReject, false)
      else
        match alookup p1.job_versions sh.job_id with
        | none =>
            -- note: this path increments `rejected` and records the tally but
            -- sends no error response in the source
            (p1,
             ({ w with status := { w.status with rejected := w.status.rejected + 1 } }).add_shares
               sh.edge_bits 0 1 0,
             Outcome.unknownJob, false)
        | some pp =>
            if env.header_ok pp (sh.edge_bits % 256) sh.nonce sh.pow then
              if env.verify_ok pp (sh.edge_bits % 256) sh.nonce sh.pow then
                if env.difficulty (sh.edge_bits % 256) sh.pow < 1 then
                  (p1,
                   (({ w with status := { w.status with rejected := w.status.rejected + 1 } }).add_shares
                       sh.edge_bits 0 1 0).send_err
                     "submit" "Rejected low difficulty solution" (-32502),
                   Outcome.lowDiff, false)
                else if env.difficulty (sh.edge_bits % 256) sh.pow < w.status.difficulty then
                  (p1,
                   (({ w with status := { w.status with rejected := w.status.rejected + 1 } }).add_shares
                       sh.edge_bits 0 1 0).send_err
                     "submit" "Failed to validate solution" (-32502),
                   Outcome.lowWorkerDiff, false)
                else
                  let w1 : Worker :=
                    ((({ w with status := { w.status with accepted := w.status.accepted + 1 } }).add_shares
                        sh.edge_bits 1 0 0).send_ok "submit")
                  if sh.height = 0 then
                    -- `share.job_id % share.height` panics: remainder by zero
                    (p1, w1, Outcome.accepted, true)
                  else
                    ({ p1 with submitted := p1.submitted ++
                        [({ sh with job_id := sh.job_id % sh.height }, full_worker_id w)] },
                     w1, Outcome.accepted, false)
              else
                (p1,
                 (({ w with status := { w.status with rejected := w.status.rejected + 1 } }).add_shares
                     sh.edge_bits 0 1 0).send_err
                   "submit" "Failed to validate solution" (-32502),
                 Outcome.verifyFail, false)
            else
              (p1,
               (({ w with status := { w.status with rejected := w.status.rejected + 1 } }).add_shares
                   sh.edge_bits 0 1 0).send_err
                 "submit" "Failed to validate solution" (-32502),
               Outcome.headerFail, false)

/-- Folding `processShare` over one worker's list of freshly retrieved
shares; `none` propagates a panic inside the loop body. -/
def processShareList (env : Env) (p : Pool) (w : Worker) :
    List Share → Option (Pool × Worker)
  | [] => some (p, w)
  | sh :: rest =>
      match processShare env p w sh with
      | (_, _, _, true) => none
      | (p', w', _, false) => processShareList env p' w' rest

/-- `Pool::process_shares` (pool.rs lines 286–418): iterate over the
worker registry, retrieve each worker's queued shares and run the pipeline
over them.  `get_shares` models `worker.get_shares()` (in `pool/worker.rs`,
not among the given sources), keyed by the registry key; its result type
mirrors the `Result<Option<Vec<Share>>, _>` the call site unwraps.  The
source calls `.unwrap()` on it, so an `error` result panics: the whole
traversal returns `none` and the remaining workers are not processed. -/
def process_shares (env : Env)
    (get_shares : String → Except Unit (Option (List Share))) (p : Pool) :
    List (String × Worker) → Option (Pool × List (String × Worker))
  | [] => some (p, [])
  | (id, w) :: rest =>
      match get_shares id with
      | Except.error _ => none   -- `worker.get_shares().unwrap()` panics
      | Except.ok none =>
          match process_shares env get_shares p rest with
          | none => none
          | some (p', rest') => some (p', (id, w) :: rest')
      | Except.ok (some shares) =>
          match processShareList env p w shares with
          | none => none
          | some (p', w') =>
              match process_shares env get_shares p' rest with
              | none => none
              | some (p'', rest') => some (p'', (id, w') :: rest')

/-- `Pool::broadcast_job` (pool.rs lines 420–442): push the current job to
every authenticated worker, setting its difficulty to the configured
per-port difficulty and its height to the job height, then resetting its
share tally for the new block. -/
def broadcast_job (p : Pool) (reg : List (String × Worker)) : List (String × Worker) :=
  reg.map (fun kv =>
    if kv.2.authenticated then
      (kv.1,
       ((((kv.2.set_difficulty p.config_difficulty).set_height p.job.height).send_job
           p.job).reset_worker_shares p.job.height p.difficulty))
    else kv)

/-- `Pool::accept_new_job` (pool.rs lines 261–281): when the upstream
server's template's `pre_pow` differs from the current one, adopt it,
deriving the broadcast job id as `height * 1000 + upstream job id` (u64
arithmetic, hence the explicit wrap), broadcast it, clear the duplicates
map and the job-versions map if the height changed, and record
`job_id ↦ pre_pow` in the job-versions map. -/
def accept_new_job (server_job : JobTemplate) (p : Pool)
    (reg : List (String × Worker)) : Pool × List (String × Worker) :=
  if p.job.pre_pow ≠ server_job.pre_pow then
    let new_height : Bool := p.job.height ≠ server_job.height
    let new_job : JobTemplate :=
      { server_job with job_id := (server_job.height * 1000 + server_job.job_id) % 2 ^ 64 }
    let p1 : Pool := { p with job := new_job }
    let reg1 := broadcast_job p1 reg
    let p2 : Pool :=
      if new_height then { p1 with duplicates := [], job_versions := [] } else p1
    ({ p2 with job_versions := ainsert p2.job_versions p2.job.job_id p2.job.pre_pow },
     reg1)
  else (p, reg)

/-- The rekeying step of `Pool::process_worker_messages` (pool.rs lines
232–240) for one changed id: `remove` the record under its original key
and, if it was present, re-`insert` the same record under its current
`full_id`. -/
def rekeyOne (reg : List (String × Worker)) (orig : String) : List (String × Worker) :=
  match alookup reg orig with
  | none => reg
  | some w => ainsert (aremove reg orig) w.full_id w

/-- `Pool::process_worker_messages` (pool.rs lines 219–241): drain each
worker's inbound messages (`pm` models `worker.process_messages()`, in
`pool/worker.rs`, not among the given sources); every worker whose registry
key differs from its self-reported `full_id` has its share tally reset for
the current job height and pool difficulty and its key recorded as changed;
afterwards each changed key is rekeyed via remove-and-reinsert. -/
def process_worker_messages (pm : Worker → Worker) (p : Pool)
    (reg : List (String × Worker)) : List (String × Worker) :=
  let reg1 := reg.map (fun kv =>
    let w := pm kv.2
    if kv.1 ≠ w.full_id then (kv.1, w.reset_worker_shares p.job.height p.difficulty)
    else (kv.1, w))
  let id_changed := (reg1.filter (fun kv => kv.1 != kv.2.full_id)).map (fun kv => kv.1)
  id_changed.foldl rekeyOne reg1

/-! ### Branch characterizations of the share pipeline -/

theorem processShare_eq_dup (env : Env) (p : Pool) (w : Worker) (sh : Share) (i : Nat)
    (h1 : alookup p.duplicates sh.pow = some i) :
    processShare env p w sh =
      (p,
       (({ w with status := { w.status with rejected := w.status.rejected + 1 } }).add_shares
           sh.edge_bits 0 1 0).send_err "submit" "Failed to validate solution" (-32502),
       Outcome.dupReject, false) := by
  simp [processShare, h1]

theorem processShare_eq_size (env : Env) (p : Pool) (w : Worker) (sh : Share)
    (h1 : alookup p.duplicates sh.pow = none)
    (h2 : sh.edge_bits < 29 ∨ sh.edge_bits = 30) :
    processShare env p w sh =
      ({ p with duplicates := ainsert p.duplicates sh.pow w.uid },
       ({ w with status := { w.status with rejected := w.status.rejected + 1 } }).send_err
         "submit" "Invalid POW size" (-32502),
       Outcome.sizeReject, false) := by
  simp [processShare, h1, h2]

theorem processShare_eq_stale (env : Env) (p : Pool) (w : Worker) (sh : Share)
    (h1 : alookup p.duplicates sh.pow = none)
    (h2 : ¬(sh.edge_bits < 29 ∨ sh.edge_bits = 30))
    (h3 : sh.height ≠ p.job.height) :
    processShare env p w sh =
      ({ p with duplicates := ainsert p.duplicates sh.pow w.uid },
       (({ w with status := { w.status with stale := w.status.stale + 1 } }).add_shares
           sh.edge_bits 0 0 1).send_err "submit" "Solution submitted too late" (-32503),
       Outcome.staleReject, false) := by
  simp [processShare, h1, h2, h3]

theorem processShare_eq_unknown (env : Env) (p : Pool) (w : Worker) (sh : Share)
    (h1 : alookup p.duplicates sh.pow = none)
    (h2 : ¬(sh.edge_bits < 29 ∨ sh.edge_bits = 30))
    (h3 : sh.height = p.job.height)
    (h4 : alookup p.job_versions sh.job_id = none) :
    processShare env p w sh =
      ({ p with duplicates := ainsert p.duplicates sh.pow w.uid },
       ({ w with status := { w.status with rejected := w.status.rejected + 1 } }).add_shares
         sh.edge_bits 0 1 0,
       Outcome.unknownJob, false) := by
  simp [processShare, h1, h2, h3, h4]

theorem processShare_eq_headerFail (env : Env) (p : Pool) (w : Worker) (sh : Share)
    (pp : String)
    (h1 : alookup p.duplicates sh.pow = none)
    (h2 : ¬(sh.edge_bits < 29 ∨ sh.edge_bits = 30))
    (h3 : sh.height = p.job.height)
    (h4 : alookup p.job_versions sh.job_id = some pp)
    (h5 : env.header_ok pp (sh.edge_bits % 256) sh.nonce sh.pow = false) :
    processShare env p w sh =
      ({ p with duplicates := ainsert p.duplicates sh.pow w.uid },
       (({ w with status := { w.status with rejected := w.status.rejected + 1 } }).add_shares
           sh.edge_bits 0 1 0).send_err "submit" "Failed to validate solution" (-32502),
       Outcome.headerFail, false) := by
  simp [processShare, h1, h2, h3, h4, h5]

theorem processShare_eq_verifyFail (env : Env) (p : Pool) (w : Worker) (sh : Share)
    (pp : String)
    (h1 : alookup p.duplicates sh.pow = none)
    (h2 : ¬(sh.edge_bits < 29 ∨ sh.edge_bits = 30))
    (h3 : sh.height = p.job.height)
    (h4 : alookup p.job_versions sh.job_id = some pp)
    (h5 : env.header_ok pp (sh.edge_bits % 256) sh.nonce sh.pow = true)
    (h6 : env.verify_ok pp (sh.edge_bits % 256) sh.nonce sh.pow = false) :
    processShare env p w sh =
      ({ p with duplicates := ainsert p.duplicates sh.pow w.uid },
       (({ w with status := { w.status with rejected := w.status.rejected + 1 } }).add_shares
           sh.edge_bits 0 1 0).send_err "submit" "Failed to validate solution" (-32502),
       Outcome.verifyFail, false) := by
  simp [processShare, h1, h2, h3, h4, h5, h6]

theorem processShare_eq_lowDiff (env : Env) (p : Pool) (w : Worker) (sh : Share)
    (pp : String)
    (h1 : alookup p.duplicates sh.pow = none)
    (h2 : ¬(sh.edge_bits < 29 ∨ sh.edge_bits = 30))
    (h3 : sh.height = p.job.height)
    (h4 : alookup p.job_versions sh.job_id = some pp)
    (h5 : env.header_ok pp (sh.edge_bits % 256) sh.nonce sh.pow = true)
    (h6 : env.verify_ok pp (sh.edge_bits % 256) sh.nonce sh.pow = true)
    (h7 : env.difficulty (sh.edge_bits % 256) sh.pow < 1) :
    processShare env p w sh =
      ({ p with duplicates := ainsert p.duplicates sh.pow w.uid },
       (({ w with status := { w.status with rejected := w.status.rejected + 1 } }).add_shares
           sh.edge_bits 0 1 0).send_err "submit" "Rejected low difficulty solution" (-32502),
       Outcome.lowDiff, false) := by
  simp [processShare, h1, h2, h3, h4, h5, h6, h7]

theorem processShare_eq_lowWorkerDiff (env : Env) (p : Pool) (w : Worker) (sh : Share)
    (pp : String)
    (h1 : alookup p.duplicates sh.pow = none)
    (h2 : ¬(sh.edge_bits < 29 ∨ sh.edge_bits = 30))
    (h3 : sh.height = p.job.height)
    (h4 : alookup p.job_versions sh.job_id = some pp)
    (h5 : env.header_ok pp (sh.edge_bits % 256) sh.nonce sh.pow = true)
    (h6 : env.verify_ok pp (sh.edge_bits % 256) sh.nonce sh.pow = true)
    (h7 : ¬ env.difficulty (sh.edge_bits % 256) sh.pow < 1)
    (h8 : env.difficulty (sh.edge_bits % 256) sh.pow < w.status.difficulty) :
    processShare env p w sh =
      ({ p with duplicates := ainsert p.duplicates sh.pow w.uid },
       (({ w with status := { w.status with rejected := w.status.rejected + 1 } }).add_shares
           sh.edge_bits 0 1 0).send_err "submit" "Failed to validate solution" (-32502),
       Outcome.lowWorkerDiff, false) := by
  simp [processShare, h1, h2, h3, h4, h5, h6, h7, h8]

theorem processShare_eq_acceptPanic (env : Env) (p : Pool) (w : Worker) (sh : Share)
    (pp : String)
    (h1 : alookup p.duplicates sh.pow = none)
    (h2 : ¬(sh.edge_bits < 29 ∨ sh.edge_bits = 30))
    (h3 : sh.height = p.job.height)
    (h4 : alookup p.job_versions sh.job_id = some pp)
    (h5 : env.header_ok pp (sh.edge_bits % 256) sh.nonce sh.pow = true)
    (h6 : env.verify_ok pp (sh.edge_bits % 256) sh.nonce sh.pow = true)
    (h7 : ¬ env.difficulty (sh.edge_bits % 256) sh.pow < 1)
    (h8 : ¬ env.difficulty (sh.edge_bits % 256) sh.pow < w.status.difficulty)
    (h9 : sh.height = 0) :
    processShare env p w sh =
      ({ p with duplicates := ainsert p.duplicates sh.pow w.uid },
       ((({ w with status := { w.status with accepted := w.status.accepted + 1 } }).add_shares
           sh.edge_bits 1 0 0).send_ok "submit"),
       Outcome.accepted, true) := by
  have h10 : p.job.height = 0 := h3 ▸ h9
  simp [processShare, h1, h2, h3, h4, h5, h6, h7, h8, h10]

theorem processShare_eq_accept (env : Env) (p : Pool) (w : Worker) (sh : Share)
    (pp : String)
    (h1 : alookup p.duplicates sh.pow = none)
    (h2 : ¬(sh.edge_bits < 29 ∨ sh.edge_bits = 30))
    (h3 : sh.height = p.job.height)
    (h4 : alookup p.job_versions sh.job_id = some pp)
    (h5 : env.header_ok pp (sh.edge_bits % 256) sh.nonce sh.pow = true)
    (h6 : env.verify_ok pp (sh.edge_bits % 256) sh.nonce sh.pow = true)
    (h7 : ¬ env.difficulty (sh.edge_bits % 256) sh.pow < 1)
    (h8 : ¬ env.difficulty (sh.edge_bits % 256) sh.pow < w.status.difficulty)
    (h9 : sh.height ≠ 0) :
    processShare env p w sh =
      ({ p with duplicates := ainsert p.duplicates sh.pow w.uid,
                submitted := p.submitted ++
                  [({ sh with job_id := sh.job_id % sh.height }, full_worker_id w)] },
       ((({ w with status := { w.status with accepted := w.status.accepted + 1 } }).add_shares
           sh.edge_bits 1 0 0).send_ok "submit"),
       Outcome.accepted, false) := by
  have h10 : p.job.height ≠ 0 := h3 ▸ h9
  simp [processShare, h1, h2, h3, h4, h5, h6, h7, h8, h10]

/-- Exhaustive case analysis of the pipeline: every run of `processShare`
falls into exactly one of the ten terminal branches, with its guard
conditions and its explicit result. -/
theorem processShare_cases (env : Env) (p : Pool) (w : Worker) (sh : Share) :
    (∃ i, alookup p.duplicates sh.pow = some i ∧
      processShare env p w sh =
        (p,
         (({ w with status := { w.status with rejected := w.status.rejected + 1 } }).add_shares
             sh.edge_bits 0 1 0).send_err "submit" "Failed to validate solution" (-32502),
         Outcome.dupReject, false)) ∨
    (alookup p.duplicates sh.pow = none ∧ (sh.edge_bits < 29 ∨ sh.edge_bits = 30) ∧
      processShare env p w sh =
        ({ p with duplicates := ainsert p.duplicates sh.pow w.uid },
         ({ w with status := { w.status with rejected := w.status.rejected + 1 } }).send_err
           "submit" "Invalid POW size" (-32502),
         Outcome.sizeReject, false)) ∨
    (alookup p.duplicates sh.pow = none ∧ ¬(sh.edge_bits < 29 ∨ sh.edge_bits = 30) ∧
      sh.height ≠ p.job.height ∧
      processShare env p w sh =
        ({ p with duplicates := ainsert p.duplicates sh.pow w.uid },
         (({ w with status := { w.status with stale := w.status.stale + 1 } }).add_shares
             sh.edge_bits 0 0 1).send_err "submit" "Solution submitted too late" (-32503),
         Outcome.staleReject, false)) ∨
    (alookup p.duplicates sh.pow = none ∧ ¬(sh.edge_bits < 29 ∨ sh.edge_bits = 30) ∧
      sh.height = p.job.height ∧ alookup p.job_versions sh.job_id = none ∧
      processShare env p w sh =
        ({ p with duplicates := ainsert p.duplicates sh.pow w.uid },
         ({ w with status := { w.status with rejected := w.status.rejected + 1 } }).add_shares
           sh.edge_bits 0 1 0,
         Outcome.unknownJob, false)) ∨
    (∃ pp, alookup p.duplicates sh.pow = none ∧ ¬(sh.edge_bits < 29 ∨ sh.edge_bits = 30) ∧
      sh.height = p.job.height ∧ alookup p.job_versions sh.job_id = some pp ∧
      env.header_ok pp (sh.edge_bits % 256) sh.nonce sh.pow = false ∧
      processShare env p w sh =
        ({ p with duplicates := ainsert p.duplicates sh.pow w.uid },
         (({ w with status := { w.status with rejected := w.status.rejected + 1 } }).add_shares
             sh.edge_bits 0 1 0).send_err "submit" "Failed to validate solution" (-32502),
         Outcome.headerFail, false)) ∨
    (∃ pp, alookup p.duplicates sh.pow = none ∧ ¬(sh.edge_bits < 29 ∨ sh.edge_bits = 30) ∧
      sh.height = p.job.height ∧ alookup p.job_versions sh.job_id = some pp ∧
      env.header_ok pp (sh.edge_bits % 256) sh.nonce sh.pow = true ∧
      env.verify_ok pp (sh.edge_bits % 256) sh.nonce sh.pow = false ∧
      processShare env p w sh =
        ({ p with duplicates := ainsert p.duplicates sh.pow w.uid },
         (({ w with status := { w.status with rejected := w.status.rejected + 1 } }).add_shares
             sh.edge_bits 0 1 0).send_err "submit" "Failed to validate solution" (-32502),
         Outcome.verifyFail, false)) ∨
    (∃ pp, alookup p.duplicates sh.pow = none ∧ ¬(sh.edge_bits < 29 ∨ sh.edge_bits = 30) ∧
      sh.height = p.job.height ∧ alookup p.job_versions sh.job_id = some pp ∧
      env.header_ok pp (sh.edge_bits % 256) sh.nonce sh.pow = true ∧
      env.verify_ok pp (sh.edge_bits % 256) sh.nonce sh.pow = true ∧
      env.difficulty (sh.edge_bits % 256) sh.pow < 1 ∧
      processShare env p w sh =
        ({ p with duplicates := ainsert p.duplicates sh.pow w.uid },
         (({ w with status := { w.status with rejected := w.status.rejected + 1 } }).add_shares
             sh.edge_bits 0 1 0).send_err "submit" "Rejected low difficulty solution" (-32502),
         Outcome.lowDiff, false)) ∨
    (∃ pp, alookup p.duplicates sh.pow = none ∧ ¬(sh.edge_bits < 29 ∨ sh.edge_bits = 30) ∧
      sh.height = p.job.height ∧ alookup p.job_versions sh.job_id = some pp ∧
      env.header_ok pp (sh.edge_bits % 256) sh.nonce sh.pow = true ∧
      env.verify_ok pp (sh.edge_bits % 256) sh.nonce sh.pow = true ∧
      ¬ env.difficulty (sh.edge_bits % 256) sh.pow < 1 ∧
      env.difficulty (sh.edge_bits % 256) sh.pow < w.status.difficulty ∧
      processShare env p w sh =
        ({ p with duplicates := ainsert p.duplicates sh.pow w.uid },
         (({ w with status := { w.status with rejected := w.status.rejected + 1 } }).add_shares
             sh.edge_bits 0 1 0).send_err "submit" "Failed to validate solution" (-32502),
         Outcome.lowWorkerDiff, false)) ∨
    (∃ pp, alookup p.duplicates sh.pow = none ∧ ¬(sh.edge_bits < 29 ∨ sh.edge_bits = 30) ∧
      sh.height = p.job.height ∧ alookup p.job_versions sh.job_id = some pp ∧
      env.header_ok pp (sh.edge_bits % 256) sh.nonce sh.pow = true ∧
      env.verify_ok pp (sh.edge_bits % 256) sh.nonce sh.pow = true ∧
      ¬ env.difficulty (sh.edge_bits % 256) sh.pow < 1 ∧
      ¬ env.difficulty (sh.edge_bits % 256) sh.pow < w.status.difficulty ∧
      sh.height = 0 ∧
      processShare env p w sh =
        ({ p with duplicates := ainsert p.duplicates sh.pow w.uid },
         ((({ w with status := { w.status with accepted := w.status.accepted + 1 } }).add_shares
             sh.edge_bits 1 0 0).send_ok "submit"),
         Outcome.accepted, true)) ∨
    (∃ pp, alookup p.duplicates sh.pow = none ∧ ¬(sh.edge_bits < 29 ∨ sh.edge_bits = 30) ∧
      sh.height = p.job.height ∧ alookup p.job_versions sh.job_id = some pp ∧
      env.header_ok pp (sh.edge_bits % 256) sh.nonce sh.pow = true ∧
      env.verify_ok pp (sh.edge_bits % 256) sh.nonce sh.pow = true ∧
      ¬ env.difficulty (sh.edge_bits % 256) sh.pow < 1 ∧
      ¬ env.difficulty (sh.edge_bits % 256) sh.pow < w.status.difficulty ∧
      sh.height ≠ 0 ∧
      processShare env p w sh =
        ({ p with duplicates := ainsert p.duplicates sh.pow w.uid,
                  submitted := p.submitted ++
                    [({ sh with job_id := sh.job_id % sh.height }, full_worker_id w)] },
         ((({ w with status := { w.status with accepted := w.status.accepted + 1 } }).add_shares
             sh.edge_bits 1 0 0).send_ok "submit"),
         Outcome.accepted, false)) := by
  rcases h1 : alookup p.duplicates sh.pow with _ | i
  · by_cases h2 : sh.edge_bits < 29 ∨ sh.edge_bits = 30
    · exact Or.inr (Or.inl ⟨rfl, h2, processShare_eq_size env p w sh h1 h2⟩)
    · by_cases h3 : sh.height = p.job.height
      · rcases h4 : alookup p.job_versions sh.job_id with _ | pp
        · exact Or.inr (Or.inr (Or.inr (Or.inl
            ⟨rfl, h2, h3, rfl, processShare_eq_unknown env p w sh h1 h2 h3 h4⟩)))
        · cases h5 : env.header_ok pp (sh.edge_bits % 256) sh.nonce sh.pow
          · exact Or.inr (Or.inr (Or.inr (Or.inr (Or.inl
              ⟨pp, rfl, h2, h3, rfl, h5,
               processShare_eq_headerFail env p w sh pp h1 h2 h3 h4 h5⟩))))
          · cases h6 : env.verify_ok pp (sh.edge_bits % 256) sh.nonce sh.pow
            · exact Or.inr (Or.inr (Or.inr (Or.inr (Or.inr (Or.inl
                ⟨pp, rfl, h2, h3, rfl, h5, h6,
                 processShare_eq_verifyFail env p w sh pp h1 h2 h3 h4 h5 h6⟩)))))
            · by_cases h7 : env.difficulty (sh.edge_bits % 256) sh.pow < 1
              · exact Or.inr (Or.inr (Or.inr (Or.inr (Or.inr (Or.inr (Or.inl
                  ⟨pp, rfl, h2, h3, rfl, h5, h6, h7,
                   processShare_eq_lowDiff env p w sh pp h1 h2 h3 h4 h5 h6 h7⟩))))))
              · by_cases h8 : env.difficulty (sh.edge_bits % 256) sh.pow < w.status.difficulty
                · exact Or.inr (Or.inr (Or.inr (Or.inr (Or.inr (Or.inr (Or.inr (Or.inl
                    ⟨pp, rfl, h2, h3, rfl, h5, h6, h7, h8,
                     processShare_eq_lowWorkerDiff env p w sh pp h1 h2 h3 h4 h5 h6 h7 h8⟩)))))))
                · by_cases h9 : sh.height = 0
                  · exact Or.inr (Or.inr (Or.inr (Or.inr (Or.inr (Or.inr (Or.inr (Or.inr (Or.inl
                      ⟨pp, rfl, h2, h3, rfl, h5, h6, h7, h8, h9,
                       processShare_eq_acceptPanic env p w sh pp h1 h2 h3 h4 h5 h6 h7 h8 h9⟩))))))))
                  · exact Or.inr (Or.inr (Or.inr (Or.inr (Or.inr (Or.inr (Or.inr (Or.inr (Or.inr
                      ⟨pp, rfl, h2, h3, rfl, h5, h6, h7, h8, h9,
                       processShare_eq_accept env p w sh pp h1 h2 h3 h4 h5 h6 h7 h8 h9⟩))))))))
      · exact Or.inr (Or.inr (Or.inl
          ⟨rfl, h2, h3, processShare_eq_stale env p w sh h1 h2 h3⟩))
  · exact Or.inl ⟨i, rfl, processShare_eq_dup env p w sh i h1⟩

/-! ### Derived facts about the pipeline -/

/-- A share whose proof vector is not yet in the duplicates map is never
rejected as a duplicate, and its proof vector is inserted into the
duplicates map keyed to the submitting worker's id. -/
theorem processShare_inserts (env : Env) (p : Pool) (w : Worker) (sh : Share)
    (hfresh : alookup p.duplicates sh.pow = none) :
    (processShare env p w sh).1.duplicates = ainsert p.duplicates sh.pow w.uid ∧
    (processShare env p w sh).2.2.1 ≠ Outcome.dupReject := by
  rcases processShare_cases env p w sh with
      ⟨i, hi, heq⟩ | ⟨_, _, heq⟩ | ⟨_, _, _, heq⟩ | ⟨_, _, _, _, heq⟩ |
      ⟨pp, _, _, _, _, _, heq⟩ | ⟨pp, _, _, _, _, _, _, heq⟩ |
      ⟨pp, _, _, _, _, _, _, _, heq⟩ | ⟨pp, _, _, _, _, _, _, _, _, heq⟩ |
      ⟨pp, _, _, _, _, _, _, _, _, _, heq⟩ | ⟨pp, _, _, _, _, _, _, _, _, _, heq⟩
  · rw [hi] at hfresh; cases hfresh
  all_goals rw [heq]; exact ⟨rfl, by simp⟩

/-! ### Concrete sample data for witnesses and counterexamples -/

/-- A sample oracle environment: header reconstruction and proof
verification always succeed, and every proof has unscaled difficulty 10. -/
def envT : Env :=
  { header_ok := fun _ _ _ _ => true,
    verify_ok := fun _ _ _ _ => true,
    difficulty := fun _ _ => 10 }

/-- A sample authenticated worker with difficulty 8 and zeroed counters. -/
def wrk0 : Worker :=
  { uid := 1, rig_id := "rig", login := "alice", full_id := "alice-rig",
    authenticated := true, needs_job := false, error := false, height := 100,
    status := { accepted := 0, rejected := 0, stale := 0, difficulty := 8 },
    worker_shares := { height := 100, difficulty := 8, tally := [] },
    sent := [] }

/-- A sample pool state at height 100 whose current job is `100007`. -/
def pool100 : Pool :=
  { job := { job_id := 100007, height := 100, pre_pow := "ab12" },
    difficulty := 8, config_difficulty := 8,
    duplicates := [], job_versions := [(100007, "ab12")], submitted := [] }

/-- A sample well-formed share for `pool100`. -/
def share100 : Share :=
  { job_id := 100007, height := 100, edge_bits := 31, nonce := 42, pow := [1, 2, 3] }

/-- A sample pool state whose current job height is zero. -/
def pool0 : Pool :=
  { job := { job_id := 5, height := 0, pre_pow := "cd34" },
    difficulty := 8, config_difficulty := 8,
    duplicates := [], job_versions := [(5, "cd34")], submitted := [] }

/-- A sample share matching `pool0` (height zero). -/
def share0 : Share :=
  { job_id := 5, height := 0, edge_bits := 31, nonce := 7, pow := [4, 5] }

/-! ### C2 — duplicate exclusion -/

/-- C2: within one height epoch, a proof vector not yet in the duplicates
map is not rejected as a duplicate on its first submission and is inserted
into the map keyed to the submitting worker's id; a second submission of
the same proof vector (by any worker) is rejected at stage 1 as a
duplicate, incrementing that worker's rejected counter (not its stale or
accepted counter) and sending error code `-32502`. -/
theorem duplicate_exclusion (env : Env) (p : Pool) (w w2 : Worker) (sh sh2 : Share)
    (hfresh : alookup p.duplicates sh.pow = none)
    (hpow : sh2.pow = sh.pow) :
    (processShare env p w sh).2.2.1 ≠ Outcome.dupReject ∧
    alookup (processShare env p w sh).1.duplicates sh.pow = some w.uid ∧
    (processShare env (processShare env p w sh).1 w2 sh2).2.2.1 = Outcome.dupReject ∧
    (processShare env (processShare env p w sh).1 w2 sh2).2.1.status.rejected =
      w2.status.rejected + 1 ∧
    (processShare env (processShare env p w sh).1 w2 sh2).2.1.status.stale =
      w2.status.stale ∧
    (processShare env (processShare env p w sh).1 w2 sh2).2.1.status.accepted =
      w2.status.accepted ∧
    (processShare env (processShare env p w sh).1 w2 sh2).2.1.sent =
      w2.sent ++ [WorkerMsg.err "submit" "Failed to validate solution" (-32502)] := by
  obtain ⟨hins, hnotdup⟩ := processShare_inserts env p w sh hfresh
  have hlook : alookup (processShare env p w sh).1.duplicates sh.pow = some w.uid := by
    rw [hins]; exact alookup_ainsert_self p.duplicates sh.pow w.uid
  have hlook2 : alookup (processShare env p w sh).1.duplicates sh2.pow = some w.uid := by
    rw [hpow]; exact hlook
  have heq2 := processShare_eq_dup env (processShare env p w sh).1 w2 sh2 w.uid hlook2
  rw [heq2]
  refine ⟨hnotdup, hlook, rfl, ?_, ?_, ?_, ?_⟩ <;>
    simp [Worker.add_shares, Worker.send_err]

/-- Witness for C2 at a concrete input. -/
theorem duplicate_exclusion_witness :
    alookup pool100.duplicates share100.pow = none ∧
    (processShare envT pool100 wrk0 share100).2.2.1 ≠ Outcome.dupReject ∧
    (processShare envT (processShare envT pool100 wrk0 share100).1 wrk0 share100).2.2.1 =
      Outcome.dupReject ∧
    (processShare envT (processShare envT pool100 wrk0 share100).1 wrk0 share100).2.1.status.rejected =
      wrk0.status.rejected + 1 :=
  ⟨by decide,
   (duplicate_exclusion envT pool100 wrk0 wrk0 share100 share100 (by decide) rfl).1,
   (duplicate_exclusion envT pool100 wrk0 wrk0 share100 share100 (by decide) rfl).2.2.1,
   (duplicate_exclusion envT pool100 wrk0 wrk0 share100 share100 (by decide) rfl).2.2.2.1⟩

/-! ### C1 — difficulty gating -/

/-- C1 counterexample: a share that reaches the difficulty-gating stage
with unscaled difficulty `d ≥ 1` and `d ≥` the worker's difficulty, yet is
not forwarded upstream: at job height 0 the accept path increments the
accepted counter and acknowledges the worker, but then panics at
`share.job_id % share.height` before `submit_share`, so the claimed
"accepted iff" equivalence fails as stated. -/
theorem difficulty_gate_cex :
    1 ≤ envT.difficulty (share0.edge_bits % 256) share0.pow ∧
    wrk0.status.difficulty ≤ envT.difficulty (share0.edge_bits % 256) share0.pow ∧
    (processShare envT pool0 wrk0 share0).2.2.1 = Outcome.accepted ∧
    (processShare envT pool0 wrk0 share0).2.1.status.accepted = wrk0.status.accepted + 1 ∧
    (processShare envT pool0 wrk0 share0).2.1.sent = wrk0.sent ++ [WorkerMsg.ok "submit"] ∧
    (processShare envT pool0 wrk0 share0).1.submitted = pool0.submitted ∧
    (processShare envT pool0 wrk0 share0).2.2.2 = true := by
  decide

/-- C1 (amended): for every share that reaches the difficulty-gating stage
and whose height is nonzero, the share is accepted — accepted counter
incremented, worker acknowledged with `ok`, share forwarded upstream with
the height prefix stripped — iff its unscaled difficulty `d` satisfies
`d ≥ 1` and `d ≥` the worker's assigned difficulty; if `d < 1` it is
rejected with the "Rejected low difficulty solution" message, and if
`1 ≤ d <` the worker's difficulty it is rejected with the same generic
"Failed to validate solution" message (code `-32502`) that the
proof-verification stage uses.  (At height zero the accept path still
increments the counter and acknowledges, but panics at the `job_id %
height` strip before forwarding, which is what forces this amendment.) -/
theorem difficulty_gate (env : Env) (p : Pool) (w : Worker) (sh : Share) (pp : String)
    (h1 : alookup p.duplicates sh.pow = none)
    (h2 : ¬(sh.edge_bits < 29 ∨ sh.edge_bits = 30))
    (h3 : sh.height = p.job.height)
    (h4 : alookup p.job_versions sh.job_id = some pp)
    (h5 : env.header_ok pp (sh.edge_bits % 256) sh.nonce sh.pow = true)
    (h6 : env.verify_ok pp (sh.edge_bits % 256) sh.nonce sh.pow = true)
    (h0 : sh.height ≠ 0) :
    (((processShare env p w sh).2.2.1 = Outcome.accepted ∧
      (processShare env p w sh).2.1.status.accepted = w.status.accepted + 1 ∧
      (processShare env p w sh).2.1.sent = w.sent ++ [WorkerMsg.ok "submit"] ∧
      (processShare env p w sh).1.submitted = p.submitted ++
        [({ sh with job_id := sh.job_id % sh.height }, full_worker_id w)]) ↔
      (1 ≤ env.difficulty (sh.edge_bits % 256) sh.pow ∧
       w.status.difficulty ≤ env.difficulty (sh.edge_bits % 256) sh.pow)) ∧
    (env.difficulty (sh.edge_bits % 256) sh.pow < 1 →
      (processShare env p w sh).2.2.1 = Outcome.lowDiff ∧
      (processShare env p w sh).2.1.status.rejected = w.status.rejected + 1 ∧
      (processShare env p w sh).2.1.sent = w.sent ++
        [WorkerMsg.err "submit" "Rejected low difficulty solution" (-32502)]) ∧
    (1 ≤ env.difficulty (sh.edge_bits % 256) sh.pow →
      env.difficulty (sh.edge_bits % 256) sh.pow < w.status.difficulty →
      (processShare env p w sh).2.2.1 = Outcome.lowWorkerDiff ∧
      (processShare env p w sh).2.1.status.rejected = w.status.rejected + 1 ∧
      (processShare env p w sh).2.1.sent = w.sent ++
        [WorkerMsg.err "submit" "Failed to validate solution" (-32502)]) := by
  by_cases h7 : env.difficulty (sh.edge_bits % 256) sh.pow < 1
  · rw [processShare_eq_lowDiff env p w sh pp h1 h2 h3 h4 h5 h6 h7]
    refine ⟨?_, ?_, ?_⟩
    · constructor
      · rintro ⟨ho, -⟩
        exact absurd ho (by simp)
      · rintro ⟨hd, -⟩
        exact absurd hd (by omega)
    · intro _
      exact ⟨rfl, by simp [Worker.add_shares, Worker.send_err],
             by simp [Worker.add_shares, Worker.send_err]⟩
    · intro hd _
      exact absurd hd (by omega)
  · by_cases h8 : env.difficulty (sh.edge_bits % 256) sh.pow < w.status.difficulty
    · rw [processShare_eq_lowWorkerDiff env p w sh pp h1 h2 h3 h4 h5 h6 h7 h8]
      refine ⟨?_, ?_, ?_⟩
      · constructor
        · rintro ⟨ho, -⟩
          exact absurd ho (by simp)
        · rintro ⟨-, hwd⟩
          exact absurd hwd (by omega)
      · intro hd
        exact absurd hd h7
      · intro _ _
        exact ⟨rfl, by simp [Worker.add_shares, Worker.send_err],
               by simp [Worker.add_shares, Worker.send_err]⟩
    · rw [processShare_eq_accept env p w sh pp h1 h2 h3 h4 h5 h6 h7 h8 h0]
      refine ⟨?_, ?_, ?_⟩
      · constructor
        · intro _
          exact ⟨by omega, by omega⟩
        · intro _
          refine ⟨rfl, ?_, ?_, ?_⟩ <;>
            simp [Worker.add_shares, Worker.send_ok]
      · intro hd
        exact absurd hd h7
      · intro _ hwd
        exact absurd hwd h8

/-- Witness for the amended C1 at a concrete accepted share. -/
theorem difficulty_gate_witness :
    (1 ≤ envT.difficulty (share100.edge_bits % 256) share100.pow ∧
     wrk0.status.difficulty ≤ envT.difficulty (share100.edge_bits % 256) share100.pow) ∧
    (processShare envT pool100 wrk0 share100).2.2.1 = Outcome.accepted :=
  ⟨⟨by decide, by decide⟩,
   ((difficulty_gate envT pool100 wrk0 share100 "ab12" (by decide) (by decide) (by decide)
       (by decide) (by decide) (by decide) (by decide)).1.mpr ⟨by decide, by decide⟩).1⟩

/-! ### C3 — counters and the per-edge-bits tally -/

/-- A sample share with an invalid proof size (edge-bits 28 < 29). -/
def shareSz : Share :=
  { job_id := 100007, height := 100, edge_bits := 28, nonce := 1, pow := [9] }

/-- C3 counterexample: the invalid-POW-size rejection increments the
rejected counter but records nothing in the per-edge-bits share tally (the
`add_shares` call on that path is commented out in the source), so not
every terminal outcome is recorded in the tally. -/
theorem counters_and_tally_cex :
    (processShare envT pool100 wrk0 shareSz).2.2.1 = Outcome.sizeReject ∧
    (processShare envT pool100 wrk0 shareSz).2.1.status.rejected = wrk0.status.rejected + 1 ∧
    (processShare envT pool100 wrk0 shareSz).2.1.worker_shares.tally =
      wrk0.worker_shares.tally := by
  decide

/-- C3 (amended): every terminal outcome of the pipeline updates exactly
one of the worker's accepted/rejected/stale counters, and every terminal
outcome except the invalid-POW-size rejection additionally records the
outcome in the per-edge-bits share tally; the invalid-POW-size rejection
leaves the tally unchanged. -/
theorem counters_and_tally (env : Env) (p : Pool) (w : Worker) (sh : Share) :
    ((processShare env p w sh).2.2.1 = Outcome.accepted →
      (processShare env p w sh).2.1.status.accepted = w.status.accepted + 1 ∧
      (processShare env p w sh).2.1.status.rejected = w.status.rejected ∧
      (processShare env p w sh).2.1.status.stale = w.status.stale ∧
      (processShare env p w sh).2.1.worker_shares.tally = w.worker_shares.tally ++
        [{ edge_bits := sh.edge_bits, accepted := 1, rejected := 0, stale := 0 }]) ∧
    ((processShare env p w sh).2.2.1 = Outcome.staleReject →
      (processShare env p w sh).2.1.status.accepted = w.status.accepted ∧
      (processShare env p w sh).2.1.status.rejected = w.status.rejected ∧
      (processShare env p w sh).2.1.status.stale = w.status.stale + 1 ∧
      (processShare env p w sh).2.1.worker_shares.tally = w.worker_shares.tally ++
        [{ edge_bits := sh.edge_bits, accepted := 0, rejected := 0, stale := 1 }]) ∧
    ((processShare env p w sh).2.2.1 = Outcome.sizeReject →
      (processShare env p w sh).2.1.status.accepted = w.status.accepted ∧
      (processShare env p w sh).2.1.status.rejected = w.status.rejected + 1 ∧
      (processShare env p w sh).2.1.status.stale = w.status.stale ∧
      (processShare env p w sh).2.1.worker_shares.tally = w.worker_shares.tally) ∧
    ((processShare env p w sh).2.2.1 ≠ Outcome.accepted →
      (processShare env p w sh).2.2.1 ≠ Outcome.staleReject →
      (processShare env p w sh).2.2.1 ≠ Outcome.sizeReject →
      (processShare env p w sh).2.1.status.accepted = w.status.accepted ∧
      (processShare env p w sh).2.1.status.rejected = w.status.rejected + 1 ∧
      (processShare env p w sh).2.1.status.stale = w.status.stale ∧
      (processShare env p w sh).2.1.worker_shares.tally = w.worker_shares.tally ++
        [{ edge_bits := sh.edge_bits, accepted := 0, rejected := 1, stale := 0 }]) := by
  rcases processShare_cases env p w sh with
      ⟨i, _, heq⟩ | ⟨_, _, heq⟩ | ⟨_, _, _, heq⟩ | ⟨_, _, _, _, heq⟩ |
      ⟨pp, _, _, _, _, _, heq⟩ | ⟨pp, _, _, _, _, _, _, heq⟩ |
      ⟨pp, _, _, _, _, _, _, _, heq⟩ | ⟨pp, _, _, _, _, _, _, _, _, heq⟩ |
      ⟨pp, _, _, _, _, _, _, _, _, _, heq⟩ | ⟨pp, _, _, _, _, _, _, _, _, _, heq⟩ <;>
    rw [heq] <;>
    simp [Worker.add_shares, Worker.send_err, Worker.send_ok]

/-- Witness for the amended C3 at a concrete accepted share. -/
theorem counters_and_tally_witness :
    (processShare envT pool100 wrk0 share100).2.2.1 = Outcome.accepted ∧
    (processShare envT pool100 wrk0 share100).2.1.status.accepted =
      wrk0.status.accepted + 1 ∧
    (processShare envT pool100 wrk0 share100).2.1.status.rejected = wrk0.status.rejected ∧
    (processShare envT pool100 wrk0 share100).2.1.status.stale = wrk0.status.stale ∧
    (processShare envT pool100 wrk0 share100).2.1.worker_shares.tally =
      wrk0.worker_shares.tally ++
        [{ edge_bits := share100.edge_bits, accepted := 1, rejected := 0, stale := 0 }] :=
  ⟨by decide, (counters_and_tally envT pool100 wrk0 share100).1 (by decide)⟩

/-! ### C4 — rejection stages and error responses -/

/-- A sample share whose job id is absent from `pool100`'s job-versions
map. -/
def shareUJ : Share :=
  { job_id := 999, height := 100, edge_bits := 31, nonce := 3, pow := [11] }

/-- C4 counterexample: the unknown-job-id rejection increments the
rejected counter but sends the worker no error response at all, so not
every rejecting stage sends an RPC error response. -/
theorem reject_error_response_cex :
    (processShare envT pool100 wrk0 shareUJ).2.2.1 = Outcome.unknownJob ∧
    (processShare envT pool100 wrk0 shareUJ).2.1.status.rejected = wrk0.status.rejected + 1 ∧
    (processShare envT pool100 wrk0 shareUJ).2.1.sent = wrk0.sent := by
  decide

/-- C4 (amended): every rejecting stage of the pipeline increments a
status counter; every rejecting stage except the unknown-job-id stage also
sends the worker an RPC error response with a protocol error code
(`-32502` or `-32503`); when the share's job id is absent from the
job-versions map the share is counted as rejected but the worker receives
no response. -/
theorem reject_error_response (env : Env) (p : Pool) (w : Worker) (sh : Share) :
    ((processShare env p w sh).2.2.1 ≠ Outcome.accepted →
      (processShare env p w sh).2.1.status.accepted +
        (processShare env p w sh).2.1.status.rejected +
        (processShare env p w sh).2.1.status.stale =
      w.status.accepted + w.status.rejected + w.status.stale + 1) ∧
    ((processShare env p w sh).2.2.1 = Outcome.unknownJob →
      (processShare env p w sh).2.1.status.rejected = w.status.rejected + 1 ∧
      (processShare env p w sh).2.1.sent = w.sent) ∧
    ((processShare env p w sh).2.2.1 ≠ Outcome.accepted →
      (processShare env p w sh).2.2.1 ≠ Outcome.unknownJob →
      ∃ msg code, (processShare env p w sh).2.1.sent =
          w.sent ++ [WorkerMsg.err "submit" msg code] ∧
        (code = -32502 ∨ code = -32503)) := by
  rcases processShare_cases env p w sh with
      ⟨i, _, heq⟩ | ⟨_, _, heq⟩ | ⟨_, _, _, heq⟩ | ⟨_, _, _, _, heq⟩ |
      ⟨pp, _, _, _, _, _, heq⟩ | ⟨pp, _, _, _, _, _, _, heq⟩ |
      ⟨pp, _, _, _, _, _, _, _, heq⟩ | ⟨pp, _, _, _, _, _, _, _, _, heq⟩ |
      ⟨pp, _, _, _, _, _, _, _, _, _, heq⟩ | ⟨pp, _, _, _, _, _, _, _, _, _, heq⟩ <;>
    rw [heq]
  · exact ⟨fun _ => by simp [Worker.add_shares, Worker.send_err] <;> omega,
           fun hu => absurd hu (by simp),
           fun _ _ => ⟨"Failed to validate solution", -32502,
             by simp [Worker.add_shares, Worker.send_err], Or.inl rfl⟩⟩
  · exact ⟨fun _ => by simp [Worker.send_err] <;> omega,
           fun hu => absurd hu (by simp),
           fun _ _ => ⟨"Invalid POW size", -32502,
             by simp [Worker.send_err], Or.inl rfl⟩⟩
  · exact ⟨fun _ => by simp [Worker.add_shares, Worker.send_err] <;> omega,
           fun hu => absurd hu (by simp),
           fun _ _ => ⟨"Solution submitted too late", -32503,
             by simp [Worker.add_shares, Worker.send_err], Or.inr rfl⟩⟩
  · exact ⟨fun _ => by simp [Worker.add_shares] <;> omega,
           fun _ => ⟨by simp [Worker.add_shares], by simp [Worker.add_shares]⟩,
           fun _ hnu => absurd rfl hnu⟩
  · exact ⟨fun _ => by simp [Worker.add_shares, Worker.send_err] <;> omega,
           fun hu => absurd hu (by simp),
           fun _ _ => ⟨"Failed to validate solution", -32502,
             by simp [Worker.add_shares, Worker.send_err], Or.inl rfl⟩⟩
  · exact ⟨fun _ => by simp [Worker.add_shares, Worker.send_err] <;> omega,
           fun hu => absurd hu (by simp),
           fun _ _ => ⟨"Failed to validate solution", -32502,
             by simp [Worker.add_shares, Worker.send_err], Or.inl rfl⟩⟩
  · exact ⟨fun _ => by simp [Worker.add_shares, Worker.send_err] <;> omega,
           fun hu => absurd hu (by simp),
           fun _ _ => ⟨"Rejected low difficulty solution", -32502,
             by simp [Worker.add_shares, Worker.send_err], Or.inl rfl⟩⟩
  · exact ⟨fun _ => by simp [Worker.add_shares, Worker.send_err] <;> omega,
           fun hu => absurd hu (by simp),
           fun _ _ => ⟨"Failed to validate solution", -32502,
             by simp [Worker.add_shares, Worker.send_err], Or.inl rfl⟩⟩
  · exact ⟨fun hna => absurd rfl hna,
           fun hu => absurd hu (by simp),
           fun hna _ => absurd rfl hna⟩
  · exact ⟨fun hna => absurd rfl hna,
           fun hu => absurd hu (by simp),
           fun hna _ => absurd rfl hna⟩

/-- Witness for the amended C4 at a concrete unknown-job share. -/
theorem reject_error_response_witness :
    (processShare envT pool100 wrk0 shareUJ).2.2.1 = Outcome.unknownJob ∧
    (processShare envT pool100 wrk0 shareUJ).2.1.status.rejected = wrk0.status.rejected + 1 ∧
    (processShare envT pool100 wrk0 shareUJ).2.1.sent = wrk0.sent :=
  ⟨by decide, (reject_error_response envT pool100 wrk0 shareUJ).2.1 (by decide)⟩

/-! ### C5 — job-id derivation and round trip -/

/-- A sample upstream job template at height 101 with upstream id 7. -/
def jobT : JobTemplate := { job_id := 7, height := 101, pre_pow := "ef56" }

/-- A sample pool state like `pool100` but with a nonempty duplicates
map. -/
def poolD : Pool :=
  { job := { job_id := 100007, height := 100, pre_pow := "ab12" },
    difficulty := 8, config_difficulty := 8,
    duplicates := [([4, 5], 1)], job_versions := [(100007, "ab12")], submitted := [] }

/-- C5: adopting an upstream job with id `U` at height `H` broadcasts job
id `H * 1000 + U` (provided the `u64` product does not wrap); on
acceptance the pipeline strips the height prefix by computing
`job_id % height` on the submitted share, and the arithmetic round trip
`(H * 1000 + U) % H = U` holds whenever `U < H`. -/
theorem job_id_roundtrip (p : Pool) (sj : JobTemplate) (reg : List (String × Worker))
    (hne : p.job.pre_pow ≠ sj.pre_pow)
    (hof : sj.height * 1000 + sj.job_id < 2 ^ 64) :
    (accept_new_job sj p reg).1.job.job_id = sj.height * 1000 + sj.job_id ∧
    (sj.job_id < sj.height →
      (sj.height * 1000 + sj.job_id) % sj.height = sj.job_id) ∧
    (∀ env p2 w sh,
      (processShare env p2 w sh).2.2.1 = Outcome.accepted →
      (processShare env p2 w sh).2.2.2 = false →
      (processShare env p2 w sh).1.submitted = p2.submitted ++
        [({ sh with job_id := sh.job_id % sh.height }, full_worker_id w)]) := by
  refine ⟨?_, ?_, ?_⟩
  · rw [accept_new_job, if_pos hne]
    have hof' : sj.height * 1000 + sj.job_id < 18446744073709551616 := by omega
    dsimp only
    split <;> simp [Nat.mod_eq_of_lt hof']
  · intro hU
    rw [Nat.mul_add_mod, Nat.mod_eq_of_lt hU]
  · intro env p2 w sh hacc hpan
    rcases processShare_cases env p2 w sh with
        ⟨i, _, heq⟩ | ⟨_, _, heq⟩ | ⟨_, _, _, heq⟩ | ⟨_, _, _, _, heq⟩ |
        ⟨pp, _, _, _, _, _, heq⟩ | ⟨pp, _, _, _, _, _, _, heq⟩ |
        ⟨pp, _, _, _, _, _, _, _, heq⟩ | ⟨pp, _, _, _, _, _, _, _, _, heq⟩ |
        ⟨pp, _, _, _, _, _, _, _, _, _, heq⟩ | ⟨pp, _, _, _, _, _, _, _, _, _, heq⟩
    · rw [heq] at hacc; exact absurd hacc (by simp)
    · rw [heq] at hacc; exact absurd hacc (by simp)
    · rw [heq] at hacc; exact absurd hacc (by simp)
    · rw [heq] at hacc; exact absurd hacc (by simp)
    · rw [heq] at hacc; exact absurd hacc (by simp)
    · rw [heq] at hacc; exact absurd hacc (by simp)
    · rw [heq] at hacc; exact absurd hacc (by simp)
    · rw [heq] at hacc; exact absurd hacc (by simp)
    · rw [heq] at hpan; exact absurd hpan (by simp)
    · rw [heq]

/-- Witness for C5 at a concrete job template. -/
theorem job_id_roundtrip_witness :
    (accept_new_job jobT pool100 []).1.job.job_id = jobT.height * 1000 + jobT.job_id ∧
    (jobT.height * 1000 + jobT.job_id) % jobT.height = jobT.job_id :=
  ⟨(job_id_roundtrip pool100 jobT [] (by decide) (by decide)).1,
   (job_id_roundtrip pool100 jobT [] (by decide) (by decide)).2.1 (by decide)⟩

/-! ### C6 — epoch reset of the duplicates and job-versions maps -/

/-- C6: when `accept_new_job` adopts a template whose `pre_pow` differs
from the current one, then: if the height also changed, the duplicates map
and the job-versions map are cleared and the job-versions map afterwards
holds exactly the new job's entry; if the height is unchanged, the
duplicates map is retained and the new `job_id ↦ pre_pow` binding is added
to the retained job-versions map, so every other job id remains resolvable
exactly as before. -/
theorem epoch_reset (sj : JobTemplate) (p : Pool) (reg : List (String × Worker))
    (hne : p.job.pre_pow ≠ sj.pre_pow) :
    (p.job.height ≠ sj.height →
      (accept_new_job sj p reg).1.duplicates = [] ∧
      (accept_new_job sj p reg).1.job_versions =
        [((sj.height * 1000 + sj.job_id) % 2 ^ 64, sj.pre_pow)]) ∧
    (p.job.height = sj.height →
      (accept_new_job sj p reg).1.duplicates = p.duplicates ∧
      (accept_new_job sj p reg).1.job_versions =
        ainsert p.job_versions ((sj.height * 1000 + sj.job_id) % 2 ^ 64) sj.pre_pow ∧
      alookup (accept_new_job sj p reg).1.job_versions
          ((sj.height * 1000 + sj.job_id) % 2 ^ 64) = some sj.pre_pow ∧
      (∀ j, j ≠ (sj.height * 1000 + sj.job_id) % 2 ^ 64 →
        alookup (accept_new_job sj p reg).1.job_versions j =
          alookup p.job_versions j)) := by
  constructor
  · intro hh
    constructor
    · simp [accept_new_job, hne, hh]
    · simp [accept_new_job, hne, hh, ainsert]
  · intro hh
    have hd : (accept_new_job sj p reg).1.duplicates = p.duplicates := by
      simp [accept_new_job, hne, hh]
    have hv : (accept_new_job sj p reg).1.job_versions =
        ainsert p.job_versions ((sj.height * 1000 + sj.job_id) % 2 ^ 64) sj.pre_pow := by
      simp [accept_new_job, hne, hh]
    refine ⟨hd, hv, ?_, ?_⟩
    · rw [hv]; exact alookup_ainsert_self _ _ _
    · intro j hj; rw [hv]; exact alookup_ainsert_ne _ _ _ _ hj

/-- Witness for C6: a height change clears a nonempty duplicates map and
resets the job-versions map to the single new entry. -/
theorem epoch_reset_witness :
    (accept_new_job jobT poolD []).1.duplicates = [] ∧
    (accept_new_job jobT poolD []).1.job_versions =
      [((jobT.height * 1000 + jobT.job_id) % 2 ^ 64, jobT.pre_pow)] :=
  (epoch_reset jobT poolD [] (by decide)).1 (by decide)

/-! ### C7 — staleness and error codes -/

/-- Every error response sent by a non-stale branch of the pipeline
carries code `-32502`. -/
theorem processShare_err_codes (env : Env) (p : Pool) (w : Worker) (sh : Share)
    (meth msg : String) (code : Int)
    (hno : (processShare env p w sh).2.2.1 ≠ Outcome.staleReject)
    (hin : WorkerMsg.err meth msg code ∈ (processShare env p w sh).2.1.sent)
    (hnotin : WorkerMsg.err meth msg code ∉ w.sent) :
    code = -32502 := by
  rcases processShare_cases env p w sh with
      ⟨i, _, heq⟩ | ⟨_, _, heq⟩ | ⟨_, _, _, heq⟩ | ⟨_, _, _, _, heq⟩ |
      ⟨pp, _, _, _, _, _, heq⟩ | ⟨pp, _, _, _, _, _, _, heq⟩ |
      ⟨pp, _, _, _, _, _, _, _, heq⟩ | ⟨pp, _, _, _, _, _, _, _, _, heq⟩ |
      ⟨pp, _, _, _, _, _, _, _, _, _, heq⟩ | ⟨pp, _, _, _, _, _, _, _, _, _, heq⟩
  · rw [heq] at hin
    simp [Worker.add_shares, Worker.send_err] at hin
    rcases hin with h | h
    · exact absurd h hnotin
    · exact h.2.2
  · rw [heq] at hin
    simp [Worker.send_err] at hin
    rcases hin with h | h
    · exact absurd h hnotin
    · exact h.2.2
  · rw [heq] at hno
    exact absurd rfl hno
  · rw [heq] at hin
    simp [Worker.add_shares] at hin
    exact absurd hin hnotin
  · rw [heq] at hin
    simp [Worker.add_shares, Worker.send_err] at hin
    rcases hin with h | h
    · exact absurd h hnotin
    · exact h.2.2
  · rw [heq] at hin
    simp [Worker.add_shares, Worker.send_err] at hin
    rcases hin with h | h
    · exact absurd h hnotin
    · exact h.2.2
  · rw [heq] at hin
    simp [Worker.add_shares, Worker.send_err] at hin
    rcases hin with h | h
    · exact absurd h hnotin
    · exact h.2.2
  · rw [heq] at hin
    simp [Worker.add_shares, Worker.send_err] at hin
    rcases hin with h | h
    · exact absurd h hnotin
    · exact h.2.2
  · rw [heq] at hin
    simp [Worker.add_shares, Worker.send_ok] at hin
    exact absurd hin hnotin
  · rw [heq] at hin
    simp [Worker.add_shares, Worker.send_ok] at hin
    exact absurd hin hnotin

/-- A sample stale share: its height 99 differs from `pool100`'s job
height 100. -/
def shareSt : Share :=
  { job_id := 100007, height := 99, edge_bits := 31, nonce := 2, pow := [8] }

/-- C7: a share that passes the duplicate and proof-size stages but whose
height differs from the controller's current job height is rejected as
stale: the stale counter (and not the rejected or accepted counter) is
incremented and the worker receives error code `-32503`; every error
response sent by any other branch of the pipeline uses code `-32502`. -/
theorem stale_check (env : Env) (p : Pool) (w : Worker) (sh : Share)
    (h1 : alookup p.duplicates sh.pow = none)
    (h2 : ¬(sh.edge_bits < 29 ∨ sh.edge_bits = 30))
    (h3 : sh.height ≠ p.job.height) :
    (processShare env p w sh).2.2.1 = Outcome.staleReject ∧
    (processShare env p w sh).2.1.status.stale = w.status.stale + 1 ∧
    (processShare env p w sh).2.1.status.rejected = w.status.rejected ∧
    (processShare env p w sh).2.1.status.accepted = w.status.accepted ∧
    (processShare env p w sh).2.1.sent = w.sent ++
      [WorkerMsg.err "submit" "Solution submitted too late" (-32503)] ∧
    (∀ env2 p2 w2 sh2 meth msg code,
      (processShare env2 p2 w2 sh2).2.2.1 ≠ Outcome.staleReject →
      WorkerMsg.err meth msg code ∈ (processShare env2 p2 w2 sh2).2.1.sent →
      WorkerMsg.err meth msg code ∉ w2.sent →
      code = -32502) := by
  rw [processShare_eq_stale env p w sh h1 h2 h3]
  exact ⟨rfl, by simp [Worker.add_shares, Worker.send_err],
         by simp [Worker.add_shares, Worker.send_err],
         by simp [Worker.add_shares, Worker.send_err],
         by simp [Worker.add_shares, Worker.send_err],
         fun env2 p2 w2 sh2 meth msg code =>
           processShare_err_codes env2 p2 w2 sh2 meth msg code⟩

/-- Witness for C7 at a concrete stale share. -/
theorem stale_check_witness :
    (processShare envT pool100 wrk0 shareSt).2.2.1 = Outcome.staleReject ∧
    (processShare envT pool100 wrk0 shareSt).2.1.status.stale = wrk0.status.stale + 1 ∧
    (processShare envT pool100 wrk0 shareSt).2.1.sent = wrk0.sent ++
      [WorkerMsg.err "submit" "Solution submitted too late" (-32503)] :=
  ⟨(stale_check envT pool100 wrk0 shareSt (by decide) (by decide) (by decide)).1,
   (stale_check envT pool100 wrk0 shareSt (by decide) (by decide) (by decide)).2.1,
   (stale_check envT pool100 wrk0 shareSt (by decide) (by decide) (by decide)).2.2.2.2.1⟩

/-! ### C8 — identity promotion -/

/-- C8: when the control loop observes a worker whose registry key differs
from its self-reported full id, the worker's per-block share tally is
reset to the fresh values for the current job height and pool difficulty,
and the record is rekeyed by removing it under the old key and reinserting
the same record under the new composite id — the registry still holds
exactly one record, and the old tally does not carry over. -/
theorem identity_promotion (pm : Worker → Worker) (p : Pool) (k : String) (w : Worker)
    (h : (pm w).full_id ≠ k) :
    process_worker_messages pm p [(k, w)] =
      [((pm w).full_id, (pm w).reset_worker_shares p.job.height p.difficulty)] ∧
    ((pm w).reset_worker_shares p.job.height p.difficulty).worker_shares =
      { height := p.job.height, difficulty := p.difficulty, tally := [] } := by
  constructor
  · have hk : k ≠ (pm w).full_id := fun hh => h hh.symm
    simp [process_worker_messages, rekeyOne, alookup, aremove, ainsert, hk,
      Worker.reset_worker_shares]
  · rfl

/-- A sample `process_messages` effect: the worker's self-reported full id
becomes `alice-rig` (it just completed login). -/
def pmW : Worker → Worker := fun x => { x with full_id := "alice-rig" }

/-- Witness for C8 at a concrete worker keyed by a random placeholder. -/
theorem identity_promotion_witness :
    process_worker_messages pmW pool100 [("12345", wrk0)] =
      [((pmW wrk0).full_id,
        (pmW wrk0).reset_worker_shares pool100.job.height pool100.difficulty)] :=
  (identity_promotion pmW pool100 "12345" wrk0 (by decide)).1

/-! ### C9 — the control loop and `get_shares` errors -/

/-- A `get_shares` oracle that always reports an error. -/
def gsErr : String → Except Unit (Option (List Share)) := fun _ => Except.error ()

/-- C9 (failing input): when a worker's `get_shares()` returns an error,
`process_shares` panics (`unwrap` on an `Err`), aborting the tick instead
of continuing with the remaining workers; the model returns `none`. -/
theorem get_shares_error_panics :
    process_shares envT gsErr pool100 [("12345", wrk0)] = none := rfl

/-! ### C10 — totality of the accept-path modulo -/

/-- C10: the height-prefix strip `share.job_id % share.height` on the
accept path is total for every share of nonzero height (no run panics);
conversely any panicking run is an accepted share of height zero (equal to
the controller's current job height), and such a run is reachable. -/
theorem accept_mod_totality :
    (∀ env p w sh, 1 ≤ sh.height → (processShare env p w sh).2.2.2 = false) ∧
    (∀ env p w sh, (processShare env p w sh).2.2.2 = true →
      (processShare env p w sh).2.2.1 = Outcome.accepted ∧ sh.height = 0 ∧
      sh.height = p.job.height) ∧
    (processShare envT pool0 wrk0 share0).2.2.2 = true := by
  refine ⟨?_, ?_, by decide⟩
  · intro env p w sh hh
    rcases processShare_cases env p w sh with
        ⟨i, _, heq⟩ | ⟨_, _, heq⟩ | ⟨_, _, _, heq⟩ | ⟨_, _, _, _, heq⟩ |
        ⟨pp, _, _, _, _, _, heq⟩ | ⟨pp, _, _, _, _, _, _, heq⟩ |
        ⟨pp, _, _, _, _, _, _, _, heq⟩ | ⟨pp, _, _, _, _, _, _, _, _, heq⟩ |
        ⟨pp, _, _, _, _, _, _, _, _, h9, heq⟩ | ⟨pp, _, _, _, _, _, _, _, _, _, heq⟩ <;>
      rw [heq]
    exact absurd h9 (by omega)
  · intro env p w sh hp
    rcases processShare_cases env p w sh with
        ⟨i, _, heq⟩ | ⟨_, _, heq⟩ | ⟨_, _, _, heq⟩ | ⟨_, _, _, _, heq⟩ |
        ⟨pp, _, _, _, _, _, heq⟩ | ⟨pp, _, _, _, _, _, _, heq⟩ |
        ⟨pp, _, _, _, _, _, _, _, heq⟩ | ⟨pp, _, _, _, _, _, _, _, _, heq⟩ |
        ⟨pp, _, _, h3, _, _, _, _, _, h9, heq⟩ | ⟨pp, _, _, _, _, _, _, _, _, _, heq⟩
    · rw [heq] at hp; exact absurd hp (by simp)
    · rw [heq] at hp; exact absurd hp (by simp)
    · rw [heq] at hp; exact absurd hp (by simp)
    · rw [heq] at hp; exact absurd hp (by simp)
    · rw [heq] at hp; exact absurd hp (by simp)
    · rw [heq] at hp; exact absurd hp (by simp)
    · rw [heq] at hp; exact absurd hp (by simp)
    · rw [heq] at hp; exact absurd hp (by simp)
    · rw [heq]; exact ⟨rfl, h9, h3⟩
    · rw [heq] at hp; exact absurd hp (by simp)

/-- Witness for C10: a concrete nonzero-height run does not panic. -/
theorem accept_mod_totality_witness :
    1 ≤ share100.height ∧ (processShare envT pool100 wrk0 share100).2.2.2 = false :=
  ⟨by decide, accept_mod_totality.1 envT pool100 wrk0 share100 (by decide)⟩
